import Mathlib

/-!
Verification model of the geyser-logging capture/archive pipeline
(`downloader.py`).

Instants on the wall-clock time line are modelled as rational numbers of
seconds (Python `datetime` values are absolute instants with microsecond
resolution; subtraction of two instants is exact, and arithmetic with
`timedelta` corresponds to addition of rationals).  Machine floats are
idealised as exact rationals; every quantity the program manipulates has
microsecond resolution, which rationals represent exactly.
-/

namespace Geyser

/-- The `.seconds` attribute of a Python `timedelta` spanning `q` seconds:
`timedelta` is normalised to `(days, seconds, microseconds)` with
`0 ≤ seconds < 86400` and `days = ⌊total/86400⌋`, so `.seconds` is the
whole-seconds-within-a-day component — the fractional part is discarded and
any whole-day component is dropped.  `Int.emod` matches Python's
floor-convention normalisation. -/
def tdSeconds (q : ℚ) : ℤ := ⌊q⌋ % 86400

/-- State of `Notifier`: `time_last_sent` (initially `None`),
`message_interval` (stored in seconds), `max_gigs`, `size_warn_percent`.
The Slack client itself is an external collaborator; whether
`chat_postMessage` was invoked is the observable we track. -/
structure NotifierState where
  timeLastSent : Option ℚ
  messageInterval : ℤ
  maxGigs : ℚ
  sizeWarnPercent : ℚ
deriving DecidableEq

/-- Constructor `Notifier.__init__`: `message_interval` is given in minutes and stored
multiplied by 60. -/
def notifierInit (messageIntervalMinutes : ℤ) (maxGigs sizeWarnPercent : ℚ) :
    NotifierState :=
  { timeLastSent := none, messageInterval := messageIntervalMinutes * 60,
    maxGigs := maxGigs, sizeWarnPercent := sizeWarnPercent }

/-- Model of `Notifier.send_message` at instant `now`.  Transmits (returns `true`)
iff `time_last_sent is None` or `(now - time_last_sent).seconds >
message_interval`; `time_last_sent` is updated exactly when transmitting. -/
def send_message (st : NotifierState) (now : ℚ) : NotifierState × Bool :=
  match st.timeLastSent with
  | none => ({ st with timeLastSent := some now }, true)
  | some last =>
      if tdSeconds (now - last) > st.messageInterval then
        ({ st with timeLastSent := some now }, true)
      else (st, false)

/-- Outcome of the two-call rate-limit experiment. -/
structure TwoCallResult where
  sent1 : Bool
  sent2 : Bool
  state : NotifierState
deriving DecidableEq

/-- Two `send_message` calls on a fresh `Notifier` with interval `i`
(seconds), at instants `t` and `t + d`. -/
def sendTwice (i : ℤ) (g p t d : ℚ) : TwoCallResult :=
  let st0 : NotifierState :=
    { timeLastSent := none, messageInterval := i, maxGigs := g, sizeWarnPercent := p }
  let r1 := send_message st0 t
  let r2 := send_message r1.1 (t + d)
  { sent1 := r1.2, sent2 := r2.2, state := r2.1 }

/-- Number of messages actually transmitted in the two-call experiment. -/
def sendTwiceCount (i : ℤ) (g p t d : ℚ) : ℕ :=
  (bif (sendTwice i g p t d).sent1 then 1 else 0) +
    (bif (sendTwice i g p t d).sent2 then 1 else 0)

/-- Observables of `Notifier.handle_error`: lines written to the log sink,
whether the error message was transmitted, whether the log-tail message was
transmitted, and the final rate-limit state.  `now1` and `now2` are the
instants of the two internal `send_message` calls. -/
structure HandleErrorResult where
  logged : List String
  sentError : Bool
  sentTail : Bool
  state : NotifierState
deriving DecidableEq

/-- Model of `Notifier.handle_error(error_msg, error_obj)`: logs the message (and the
decoded raw error detail when present) unconditionally, then calls
`send_message(error_msg)` and afterwards `send_message(log_tail)` — the log
tail goes out as a second, separately rate-limited message. -/
def handle_error (st : NotifierState) (errorMsg : String) (errorObj : Option String)
    (now1 now2 : ℚ) : HandleErrorResult :=
  let r1 := send_message st now1
  let r2 := send_message r1.1 now2
  { logged := errorMsg :: errorObj.toList,
    sentError := r1.2, sentTail := r2.2, state := r2.1 }

/-- Observables of `Notifier.monitor_size`: whether a warning was issued
(`send_message` called), whether it was actually transmitted, the final
state, and the directory contents afterwards (sizes of the regular files
directly inside `./frames`, non-recursive — the code only reads them). -/
structure MonitorResult where
  warnRequested : Bool
  transmitted : Bool
  state : NotifierState
  dirFiles : List ℕ
deriving DecidableEq

/-- Directory size as computed by `_get_dir_size`: sum of the byte sizes of
the regular files directly within the directory, times `1e-9`. -/
def dirSizeGigs (sizes : List ℕ) : ℚ := (sizes.sum : ℚ) * (1 / 10 ^ 9)

/-- Model of `Notifier.monitor_size` over the archive directory whose regular files
have byte sizes `sizes`. -/
def monitor_size (st : NotifierState) (sizes : List ℕ) (now : ℚ) : MonitorResult :=
  if dirSizeGigs sizes ≥ st.maxGigs * st.sizeWarnPercent then
    let r := send_message st now
    { warnRequested := true, transmitted := r.2, state := r.1, dirFiles := sizes }
  else
    { warnRequested := false, transmitted := false, state := st, dirFiles := sizes }

/-- One `handle_error` invocation as the Notifier observes it: the message
and the raw error detail (decoded stderr bytes) when one was passed. -/
abbrev ErrorCall := String × Option String

/-- The deliberate-interrupt marker recognised in the capture tool's
stderr. -/
def interruptMarker : String := "ERROR: Interrupted by user"

/-- Python substring containment: `pat in s` holds iff splitting `s` on
`pat` yields more than one piece (for a non-empty `pat`). -/
def strContains (s pat : String) : Bool := (s.splitOn pat).length != 1

/-- Observables of `DataCollector.download_chunk` after the capture
collaborator exits: whether the run was classified a success (the
success log line) and the error reports issued. -/
structure DownloadResult where
  success : Bool
  errors : List ErrorCall
deriving DecidableEq

/-- Message used by `download_chunk` when reporting a capture failure. -/
def downloadErrorMsg : String := "Could not download video from source"

/-- Classification step of `DataCollector.download_chunk`: the collaborator
exited with `returncode` and produced `stderr` (decoded). -/
def download_chunk (returncode : ℤ) (stderr : String) : DownloadResult :=
  if returncode ≠ 0 ∧ strContains stderr interruptMarker = false then
    { success := false, errors := [(downloadErrorMsg, some stderr)] }
  else
    { success := true, errors := [] }

/-- One frame move performed by `_move_images`: the source image file, the
synthesized timestamp `current_time` at which it is moved, and the second
embedded in its archived name (`strftime` truncates to whole seconds). -/
structure Move where
  src : String
  instant : ℚ
  destSecond : ℤ
deriving DecidableEq

/-- The renaming loop of `_move_images`: walks the sorted images keeping
`current_time`, which advances by `seconds_interval` after each move. -/
def moveLoop : List String → ℚ → ℚ → List Move
  | [], _, _ => []
  | img :: rest, current, interval =>
      { src := img, instant := current, destSecond := ⌊current⌋ } ::
        moveLoop rest (current + interval) interval

/-- Observables of `DataCollector._move_images`: error reports, the moves
performed, and the `.jpg` files left in the working directory. -/
structure MoveImagesResult where
  errors : List ErrorCall
  moves : List Move
  cwdJpgs : List String
deriving DecidableEq

/-- Message used by `_move_images` when no images are found. -/
def emptyFramesMsg : String := "_move_images called but no images were found"

/-- Model of `DataCollector._move_images(start_time, end_time)` with `cwdJpgs` the
`.jpg` files present in the working directory when it globs.  `sorted` on
Python strings is modelled by insertion sort over the lexicographic order
(any correct sort of a total order gives the same list).  The interval is
`time_range.seconds / len(images)` where `time_range.seconds` keeps only
the within-day whole-seconds component. -/
def move_images (cwdJpgs : List String) (start_time end_time : ℚ) :
    MoveImagesResult :=
  if (List.insertionSort (· ≤ ·) cwdJpgs).length = 0 then
    { errors := [(emptyFramesMsg, none)], moves := [], cwdJpgs := cwdJpgs }
  else
    { errors := [],
      moves := moveLoop (List.insertionSort (· ≤ ·) cwdJpgs) start_time
        ((tdSeconds (end_time - start_time) : ℚ) /
          ((List.insertionSort (· ≤ ·) cwdJpgs).length : ℚ)),
      cwdJpgs := [] }

/-- Per-artifact behaviour of the external collaborators during one
iteration of `process_videos`: the extraction exit code and stderr, the
start instant encoded in (and parsed back from) the artifact's filename,
the duration reported by the probe, and the `.jpg` files the extraction
run wrote into the working directory. -/
structure VideoEnv where
  extractExit : ℤ
  extractStderr : String
  start : ℚ
  duration : ℚ
  newJpgs : List String
deriving DecidableEq

/-- Message used by `process_videos` when frame extraction fails. -/
def splitErrorMsg : String := "Could not split video into frames using FFMPEG"

/-- Cumulative observables of a `process_videos` pass: error reports made
to the Notifier, frame moves performed, artifact files deleted, and the
`.jpg` files currently in the working directory. -/
structure PVTrace where
  errors : List ErrorCall
  moves : List Move
  removed : List String
  cwdJpgs : List String
deriving DecidableEq

/-- One iteration of the `process_videos` loop on artifact `file`.  On a
non-zero extraction exit: report the error (with raw stderr) and delete
the artifact.  Otherwise: parse `start_time` from the filename, probe the
duration, call `_move_images(start_time, end_time)`, and then — in this
branch unconditionally, even after the empty-frame early return inside
`_move_images` — delete the artifact file. -/
def processOne (tr : PVTrace) (fe : String × VideoEnv) : PVTrace :=
  if fe.2.extractExit ≠ 0 then
    { tr with
      errors := tr.errors ++ [(splitErrorMsg, some fe.2.extractStderr)],
      removed := tr.removed ++ [fe.1],
      cwdJpgs := tr.cwdJpgs ++ fe.2.newJpgs }
  else
    { errors := tr.errors ++
        (move_images (tr.cwdJpgs ++ fe.2.newJpgs) fe.2.start
          (fe.2.start + fe.2.duration)).errors,
      moves := tr.moves ++
        (move_images (tr.cwdJpgs ++ fe.2.newJpgs) fe.2.start
          (fe.2.start + fe.2.duration)).moves,
      removed := tr.removed ++ [fe.1],
      cwdJpgs := (move_images (tr.cwdJpgs ++ fe.2.newJpgs) fe.2.start
        (fe.2.start + fe.2.duration)).cwdJpgs }

/-- Remainder of a `process_videos` pass starting from trace `tr`. -/
def processVideosFrom (tr : PVTrace) (files : List (String × VideoEnv)) :
    PVTrace :=
  files.foldl processOne tr

/-- Model of `DataCollector.process_videos`: iterates over the globbed `*.mp4`
artifacts (each paired with its collaborator behaviour), starting with the
`.jpg` files already present in the working directory. -/
def process_videos (files : List (String × VideoEnv)) (initJpgs : List String) :
    PVTrace :=
  processVideosFrom { errors := [], moves := [], removed := [], cwdJpgs := initJpgs } files

/-- Concrete stderr text used in the C6 witness. -/
def boomMsg : String := "boom"

/-- Calendar instant at second precision, as recorded by `datetime.now()`
at capture time and embedded in the artifact filename. -/
structure PyDateTime where
  year : ℕ
  month : ℕ
  day : ℕ
  hour : ℕ
  minute : ℕ
  second : ℕ
deriving DecidableEq

/-- Gregorian leap-year rule, as Python's `datetime` applies it. -/
def isLeapYear (y : ℕ) : Bool := (y % 4 == 0 && y % 100 != 0) || y % 400 == 0

/-- Number of days in a month, as `datetime`/`strptime` validate it. -/
def daysInMonth (y m : ℕ) : ℕ :=
  if m = 2 then (if isLeapYear y then 29 else 28)
  else if m = 4 ∨ m = 6 ∨ m = 9 ∨ m = 11 then 30
  else 31

/-- The instants Python `datetime` can represent (and `strptime` accepts). -/
def PyDateTime.Valid (t : PyDateTime) : Prop :=
  1 ≤ t.year ∧ t.year ≤ 9999 ∧ 1 ≤ t.month ∧ t.month ≤ 12 ∧
  1 ≤ t.day ∧ t.day ≤ daysInMonth t.year t.month ∧
  t.hour ≤ 23 ∧ t.minute ≤ 59 ∧ t.second ≤ 59

instance (t : PyDateTime) : Decidable t.Valid := by
  unfold PyDateTime.Valid
  infer_instance

/-- Decimal digit character for `n % 10`. -/
def digitChar (n : ℕ) : Char := Char.ofNat (48 + n % 10)

/-- Two-digit zero-padded decimal rendering, as `%m`, `%d`, `%H`, `%M`,
`%S` are rendered by `str(datetime)` / `strftime`. -/
def pad2 (n : ℕ) : List Char := [digitChar (n / 10), digitChar n]

/-- Four-digit zero-padded decimal rendering, as `%Y` is rendered by
`str(datetime)` for years up to 9999. -/
def pad4 (n : ℕ) : List Char :=
  [digitChar (n / 1000), digitChar (n / 100), digitChar (n / 10), digitChar n]

/-- The writer side: `str(datetime.now()).split('.')[0]` renders the
instant as `YYYY-MM-DD HH:MM:SS` (zero-padded, second precision). -/
def fmtDateTime (t : PyDateTime) : List Char :=
  pad4 t.year ++ '-' :: pad2 t.month ++ '-' :: pad2 t.day ++
    ' ' :: pad2 t.hour ++ ':' :: pad2 t.minute ++ ':' :: pad2 t.second

/-- The artifact filename written at capture time: the serialized instant
followed by the `.mp4` extension. -/
def artifactFilename (t : PyDateTime) : List Char :=
  fmtDateTime t ++ '.' :: ['m', 'p', '4']

/-- Reads one decimal digit character. -/
def parseDigit (c : Char) : Option ℕ :=
  if 48 ≤ c.toNat ∧ c.toNat ≤ 57 then some (c.toNat - 48) else none

/-- Reads a two-digit decimal field. -/
def parse2 (a b : Char) : Option ℕ := do
  let x ← parseDigit a
  let y ← parseDigit b
  pure (10 * x + y)

/-- Reads a four-digit decimal field. -/
def parse4 (a b c d : Char) : Option ℕ := do
  let x ← parseDigit a
  let y ← parseDigit b
  let z ← parseDigit c
  let w ← parseDigit d
  pure (1000 * x + 100 * y + 10 * z + w)

/-- The reader side: `datetime.strptime(s, '%Y-%m-%d %H:%M:%S')`, modelled
on the zero-padded fixed-width form — the only form the writer emits — and
validating calendar ranges as `strptime` does. -/
def strptimeYmdHMS (cs : List Char) : Option PyDateTime :=
  match cs with
  | [y1, y2, y3, y4, '-', a1, a2, '-', b1, b2, ' ', c1, c2, ':', d1, d2,
      ':', e1, e2] => do
      let y ← parse4 y1 y2 y3 y4
      let mo ← parse2 a1 a2
      let da ← parse2 b1 b2
      let ho ← parse2 c1 c2
      let mi ← parse2 d1 d2
      let se ← parse2 e1 e2
      let t : PyDateTime :=
        { year := y, month := mo, day := da, hour := ho, minute := mi,
          second := se }
      if t.Valid then some t else none
  | _ => none

/-- Python's `file.split('.')[0]`: everything before the first dot. -/
def takeBeforeDot (cs : List Char) : List Char :=
  cs.takeWhile (fun c => !(c == '.'))

/-- The reader side of the filename boundary in `process_videos`:
`datetime.strptime(file.split('.')[0], '%Y-%m-%d %H:%M:%S')`. -/
def parseArtifactStart (file : List Char) : Option PyDateTime :=
  strptimeYmdHMS (takeBeforeDot file)

/-- The concrete instant 2024-01-01 00:00:00 used in the C8 witness. -/
def sampleInstant : PyDateTime :=
  { year := 2024, month := 1, day := 1, hour := 0, minute := 0, second := 0 }

/-- Length of the move list equals the number of images. -/
theorem moveLoop_length (imgs : List String) (c v : ℚ) :
    (moveLoop imgs c v).length = imgs.length := by
  induction imgs generalizing c with
  | nil => rfl
  | cons a rest ih => simp [moveLoop, ih]

/-- Closed form of the renaming loop: image `i` (0-indexed) is moved at
instant `c + i * v` and archived under the second `⌊c + i * v⌋`. -/
theorem moveLoop_getD (imgs : List String) (c v : ℚ) (i : ℕ)
    (h : i < imgs.length) :
    (moveLoop imgs c v).getD i { src := "", instant := 0, destSecond := 0 } =
      { src := imgs.getD i (""), instant := c + (i : ℚ) * v,
        destSecond := ⌊c + (i : ℚ) * v⌋ } := by
  induction imgs generalizing c i with
  | nil => simp at h
  | cons a rest ih =>
      cases i with
      | zero => simp [moveLoop]
      | succ j =>
          have hj : j < rest.length := by simpa using h
          have harr : c + v + (j : ℚ) * v = c + ((j + 1 : ℕ) : ℚ) * v := by
            push_cast
            ring
          simp only [moveLoop, List.getD_cons_succ, ih (c + v) j hj, harr]

/-- The loop moves exactly the images it is given, in order. -/
theorem moveLoop_map_src (imgs : List String) (c v : ℚ) :
    (moveLoop imgs c v).map Move.src = imgs := by
  induction imgs generalizing c with
  | nil => rfl
  | cons a rest ih => simp [moveLoop, ih]

/-- C2 counterexample: interval `I = 60` seconds, first call at `t = 0`,
second at `δ = 60 = I`.  The claim says `δ ≥ I` gives exactly two
transmissions, but the strict comparison in the code suppresses the second
message, so only one is transmitted. -/
theorem sendTwice_boundary_counterexample :
    ((60 : ℚ) - 0 ≥ ((60 : ℤ) : ℚ)) ∧ sendTwiceCount 60 0 0 0 60 ≠ 2 := by
  constructor
  · norm_num
  · norm_num [sendTwiceCount, sendTwice, send_message, tdSeconds]

/-- C2 (amended): the first `send_message` call in a Notifier's lifetime
always transmits; the second call at `t + d` transmits iff the
within-day whole-seconds component of `d` strictly exceeds the interval
(so `d`, being equal to the interval, gives one transmission, not two);
`time_last_sent` holds the instant of the last actual transmission; and in
general `send_message` updates the state exactly when it transmits. -/
theorem sendTwice_spec :
    (∀ (i : ℤ) (g p t d : ℚ),
      (sendTwice i g p t d).sent1 = true ∧
      (sendTwice i g p t d).sent2 = decide (tdSeconds d > i) ∧
      (sendTwice i g p t d).state.timeLastSent =
        some (if tdSeconds d > i then t + d else t) ∧
      sendTwiceCount i g p t d = 1 + (bif decide (tdSeconds d > i) then 1 else 0)) ∧
    (∀ (st : NotifierState) (now : ℚ),
      (send_message st now).1 =
        (bif (send_message st now).2 then { st with timeLastSent := some now } else st)) := by
  constructor
  · intro i g p t d
    have hd : t + d - t = d := by ring
    unfold sendTwiceCount sendTwice send_message
    simp only [hd]
    by_cases h : tdSeconds d > i
    · simp [h]
    · simp [h]
  · intro st now
    cases st with
    | mk tls mi mg sw =>
      cases tls with
      | none => rfl
      | some last =>
          by_cases h : tdSeconds (now - last) > mi
          · simp [send_message, h]
          · simp [send_message, h]

/-- C4 counterexample: fresh Notifier with a one-hour interval,
`handle_error` with both internal sends at instant 0.  The error message is
transmitted, yet the log tail is NOT: the first transmission reset the rate
limiter, which then suppresses the tail message — the opposite of the claim
that the tail is attached exactly when the error is transmitted. -/
theorem handle_error_tail_counterexample :
    (handle_error
        { timeLastSent := none, messageInterval := 3600, maxGigs := 0, sizeWarnPercent := 0 }
        "E" none 0 0).sentError = true ∧
    (handle_error
        { timeLastSent := none, messageInterval := 3600, maxGigs := 0, sizeWarnPercent := 0 }
        "E" none 0 0).sentTail = false := by
  constructor
  · rfl
  · simp [handle_error, send_message, tdSeconds]

/-- C4 (amended): `handle_error` always writes the error message (and the
raw error detail when present) to the log unconditionally; the log tail is
sent as a second, separately rate-limited message rather than attached, and
whenever the two internal sends fall within one rate-limit interval of each
other (in particular immediately after one another), a transmitted error
message forces the tail message to be suppressed. -/
theorem handle_error_spec :
    (∀ (st : NotifierState) (msg : String) (obj : Option String) (now1 now2 : ℚ),
      (handle_error st msg obj now1 now2).logged = msg :: obj.toList) ∧
    (∀ (st : NotifierState) (msg : String) (obj : Option String) (now1 now2 : ℚ),
      (handle_error st msg obj now1 now2).sentError = true →
      tdSeconds (now2 - now1) ≤ st.messageInterval →
      (handle_error st msg obj now1 now2).sentTail = false) := by
  constructor
  · intro st msg obj now1 now2
    rfl
  · intro st msg obj now1 now2 hsent hclose
    unfold handle_error send_message at hsent ⊢
    cases hst : st.timeLastSent with
    | none =>
        simp only [hst] at hsent ⊢
        simp [not_lt.mpr hclose]
    | some last =>
        simp only [hst] at hsent ⊢
        by_cases h : tdSeconds (now1 - last) > st.messageInterval
        · simp only [if_pos h]
          simp [not_lt.mpr hclose]
        · simp [if_neg h] at hsent

/-- C4 witness: concrete instance of the amended theorem — fresh Notifier,
one-hour interval, both sends at instant 0: the tail is suppressed. -/
theorem handle_error_spec_witness :
    (handle_error
        { timeLastSent := none, messageInterval := 3600, maxGigs := 0, sizeWarnPercent := 0 }
        "E" none 0 0).sentError = true ∧
    tdSeconds ((0 : ℚ) - 0) ≤ (3600 : ℤ) ∧
    (handle_error
        { timeLastSent := none, messageInterval := 3600, maxGigs := 0, sizeWarnPercent := 0 }
        "E" none 0 0).sentTail = false :=
  ⟨by rfl, by simp [tdSeconds],
    handle_error_spec.2
      { timeLastSent := none, messageInterval := 3600, maxGigs := 0, sizeWarnPercent := 0 }
      "E" none 0 0 (by rfl) (by simp [tdSeconds])⟩

/-- C7: the disk-usage check issues the warning (calls `send_message` with
the usage report) iff the computed directory size is at least
`max_gigs * size_warn_percent` — the boundary case of exact equality
triggers, since the comparison is `≥` — and it never deletes anything: the
directory contents are unchanged. -/
theorem monitor_size_spec (st : NotifierState) (sizes : List ℕ) (now : ℚ) :
    (monitor_size st sizes now).warnRequested
      = decide (dirSizeGigs sizes ≥ st.maxGigs * st.sizeWarnPercent) ∧
    (monitor_size st sizes now).dirFiles = sizes := by
  unfold monitor_size
  split <;> simp_all

/-- C5: a capture is classified successful exactly when the collaborator
exits 0, or exits non-zero with the deliberate-interrupt marker in its
stderr; in that case no error is reported, and any other non-zero exit
yields exactly one error report carrying the captured stderr (the function
returns normally either way, so the cycle is not halted). -/
theorem download_chunk_spec (returncode : ℤ) (stderr : String) :
    download_chunk returncode stderr =
      (if returncode = 0 ∨ strContains stderr interruptMarker = true then
        { success := true, errors := [] }
      else
        { success := false, errors := [(downloadErrorMsg, some stderr)] }) := by
  unfold download_chunk
  by_cases h1 : returncode = 0 <;>
    by_cases h2 : strContains stderr interruptMarker <;> simp [h1, h2]

/-- C1 counterexample: `start_time = 0`, probed duration `3/2`, two frames.
The claim predicts frame 1 at `start + 1 * (duration / 2) = 3/4`, but the
code divides `time_range.seconds = ⌊3/2⌋ = 1` by the frame count, so frame
1 is stamped `1/2`. -/
theorem frame_timestamps_counterexample :
    ((move_images ["a.jpg", "b.jpg"] 0 (0 + 3 / 2)).moves.getD 1
        { src := "", instant := 0, destSecond := 0 }).instant = 1 / 2 ∧
    ¬ ((1 : ℚ) / 2 = 0 + (1 : ℚ) * ((3 / 2) / 2)) := by
  constructor
  · have hsort : List.insertionSort (· ≤ ·) ["a.jpg", "b.jpg"] =
        ["a.jpg", "b.jpg"] := by
      simp [List.insertionSort, List.orderedInsert]
      decide
    have hfloor : ⌊(0 : ℚ) + 3 / 2 - 0⌋ = 1 := by
      rw [Int.floor_eq_iff]
      norm_num
    unfold move_images
    rw [hsort]
    norm_num [moveLoop, tdSeconds, hfloor]
  · norm_num

/-- C1 (amended): for every start instant, probed duration `d` and
non-empty set of frames, the synthesized timestamps form an arithmetic
sequence with frame `i` (0-indexed) stamped
`start + i * (s / n)` where `n` is the frame count and `s = ⌊d⌋ % 86400`
is the within-day whole-seconds component of the duration — so frame 0 is
stamped exactly `start_time`, consecutive frames are `s / n` apart, and the
original claim's `duration / n` spacing holds exactly when the probed
duration is a whole number of seconds smaller than one day. -/
theorem frame_timestamps (cwdJpgs : List String) (start d : ℚ)
    (h : cwdJpgs ≠ []) :
    (move_images cwdJpgs start (start + d)).moves.length = cwdJpgs.length ∧
    ∀ i, i < cwdJpgs.length →
      ((move_images cwdJpgs start (start + d)).moves.getD i
          { src := "", instant := 0, destSecond := 0 }).instant =
        start + (i : ℚ) * (((⌊d⌋ % 86400 : ℤ) : ℚ) / (cwdJpgs.length : ℚ)) := by
  have hlen : (List.insertionSort (· ≤ ·) cwdJpgs).length = cwdJpgs.length :=
    (List.perm_insertionSort (· ≤ ·) cwdJpgs).length_eq
  have hne : ¬ ((List.insertionSort (· ≤ ·) cwdJpgs).length = 0) := by
    rw [hlen]
    simpa [List.length_eq_zero] using h
  unfold move_images
  rw [if_neg hne]
  constructor
  · rw [moveLoop_length, hlen]
  · intro i hi
    have hi2 : i < (List.insertionSort (· ≤ ·) cwdJpgs).length := by
      rw [hlen]
      exact hi
    rw [moveLoop_getD _ _ _ i hi2]
    have hds : start + d - start = d := by ring
    simp [tdSeconds, hds, hlen]

/-- C1 witness: two frames, start 0, duration 30 — the amended theorem at a
concrete input (frame `i` is stamped `i * 15`). -/
theorem frame_timestamps_witness :
    (["b.jpg", "a.jpg"] : List String) ≠ [] ∧
    ((move_images ["b.jpg", "a.jpg"] 0 (0 + 30)).moves.length =
        (["b.jpg", "a.jpg"] : List String).length ∧
      ∀ i, i < (["b.jpg", "a.jpg"] : List String).length →
        ((move_images ["b.jpg", "a.jpg"] 0 (0 + 30)).moves.getD i
            { src := "", instant := 0, destSecond := 0 }).instant =
          0 + (i : ℚ) * (((⌊(30 : ℚ)⌋ % 86400 : ℤ) : ℚ) /
            ((["b.jpg", "a.jpg"] : List String).length : ℚ))) :=
  ⟨by simp, frame_timestamps ["b.jpg", "a.jpg"] 0 30 (by simp)⟩

/-- C10: the per-frame spacing is computed from only the whole-seconds
component of the time window — consecutive synthesized timestamps differ by
`(⌊d⌋ % 86400) / n`, not `d / n` — and each archived frame name carries
only second precision: the name embeds `⌊instant⌋`. -/
theorem frame_spacing_floor (cwdJpgs : List String) (start d : ℚ)
    (h : cwdJpgs ≠ []) :
    ∀ i, i + 1 < cwdJpgs.length →
      ((move_images cwdJpgs start (start + d)).moves.getD (i + 1)
            { src := "", instant := 0, destSecond := 0 }).instant -
        ((move_images cwdJpgs start (start + d)).moves.getD i
            { src := "", instant := 0, destSecond := 0 }).instant =
        ((⌊d⌋ % 86400 : ℤ) : ℚ) / (cwdJpgs.length : ℚ) ∧
      ((move_images cwdJpgs start (start + d)).moves.getD i
          { src := "", instant := 0, destSecond := 0 }).destSecond =
        ⌊((move_images cwdJpgs start (start + d)).moves.getD i
            { src := "", instant := 0, destSecond := 0 }).instant⌋ := by
  have hlen : (List.insertionSort (· ≤ ·) cwdJpgs).length = cwdJpgs.length :=
    (List.perm_insertionSort (· ≤ ·) cwdJpgs).length_eq
  have hne : ¬ ((List.insertionSort (· ≤ ·) cwdJpgs).length = 0) := by
    rw [hlen]
    simpa [List.length_eq_zero] using h
  intro i hi
  have hi1 : i < (List.insertionSort (· ≤ ·) cwdJpgs).length := by
    rw [hlen]
    omega
  have hi2 : i + 1 < (List.insertionSort (· ≤ ·) cwdJpgs).length := by
    rw [hlen]
    exact hi
  have hds : start + d - start = d := by ring
  unfold move_images
  rw [if_neg hne]
  rw [moveLoop_getD _ _ _ i hi1, moveLoop_getD _ _ _ (i + 1) hi2]
  constructor
  · simp only [tdSeconds, hds, hlen]
    push_cast
    ring
  · rfl

/-- C10 witness: duration `3/2`, two frames — the spacing is
`⌊3/2⌋ / 2 = 1/2` (and not `(3/2)/2 = 3/4`), per the theorem applied at a
concrete input. -/
theorem frame_spacing_floor_witness :
    (["a.jpg", "b.jpg"] : List String) ≠ [] ∧
    (∀ i, i + 1 < (["a.jpg", "b.jpg"] : List String).length →
      ((move_images ["a.jpg", "b.jpg"] 0 (0 + 3 / 2)).moves.getD (i + 1)
            { src := "", instant := 0, destSecond := 0 }).instant -
        ((move_images ["a.jpg", "b.jpg"] 0 (0 + 3 / 2)).moves.getD i
            { src := "", instant := 0, destSecond := 0 }).instant =
        ((⌊(3 / 2 : ℚ)⌋ % 86400 : ℤ) : ℚ) /
          ((["a.jpg", "b.jpg"] : List String).length : ℚ) ∧
      ((move_images ["a.jpg", "b.jpg"] 0 (0 + 3 / 2)).moves.getD i
          { src := "", instant := 0, destSecond := 0 }).destSecond =
        ⌊((move_images ["a.jpg", "b.jpg"] 0 (0 + 3 / 2)).moves.getD i
            { src := "", instant := 0, destSecond := 0 }).instant⌋) :=
  ⟨by simp, frame_spacing_floor ["a.jpg", "b.jpg"] 0 (3 / 2) (by simp)⟩

/-- C9: `_move_images` operates on every `.jpg` file present in the working
directory when it runs — the moved sources are exactly the working
directory's `.jpg` files in lexicographically sorted order — all of them
get timestamps interpolated from the current artifact's window, and after a
successful (non-empty) call no `.jpg` file remains in the working
directory. -/
theorem move_images_sweeps (cwdJpgs : List String) (startT endT : ℚ)
    (h : cwdJpgs ≠ []) :
    (move_images cwdJpgs startT endT).moves.map Move.src =
      List.insertionSort (· ≤ ·) cwdJpgs ∧
    ((move_images cwdJpgs startT endT).moves.map Move.src).Perm cwdJpgs ∧
    List.Sorted (· ≤ ·) ((move_images cwdJpgs startT endT).moves.map Move.src) ∧
    (move_images cwdJpgs startT endT).cwdJpgs = [] ∧
    (move_images cwdJpgs startT endT).errors = [] ∧
    ∀ i, i < cwdJpgs.length →
      ((move_images cwdJpgs startT endT).moves.getD i
          { src := "", instant := 0, destSecond := 0 }).instant =
        startT + (i : ℚ) * ((tdSeconds (endT - startT) : ℚ) /
          (cwdJpgs.length : ℚ)) := by
  have hlen : (List.insertionSort (· ≤ ·) cwdJpgs).length = cwdJpgs.length :=
    (List.perm_insertionSort (· ≤ ·) cwdJpgs).length_eq
  have hne : ¬ ((List.insertionSort (· ≤ ·) cwdJpgs).length = 0) := by
    rw [hlen]
    simpa [List.length_eq_zero] using h
  unfold move_images
  rw [if_neg hne]
  refine ⟨moveLoop_map_src _ _ _, ?_, ?_, rfl, rfl, ?_⟩
  · rw [moveLoop_map_src]
    exact List.perm_insertionSort (· ≤ ·) cwdJpgs
  · rw [moveLoop_map_src]
    exact List.sorted_insertionSort (· ≤ ·) cwdJpgs
  · intro i hi
    have hi2 : i < (List.insertionSort (· ≤ ·) cwdJpgs).length := by
      rw [hlen]
      exact hi
    rw [moveLoop_getD _ _ _ i hi2]
    simp [hlen]

/-- C9 witness: the theorem at a concrete input — two unsorted `.jpg`
files are swept up sorted and the working directory is left empty. -/
theorem move_images_sweeps_witness :
    (["thumb0002.jpg", "thumb0001.jpg"] : List String) ≠ [] ∧
    (move_images ["thumb0002.jpg", "thumb0001.jpg"] 0 30).cwdJpgs = [] :=
  ⟨by simp,
    (move_images_sweeps ["thumb0002.jpg", "thumb0001.jpg"] 0 30
      (by simp)).2.2.2.1⟩

/-- C3 counterexample: one artifact whose extraction succeeds but produces
zero frames.  The empty-frame error is reported and no frames are moved,
but — contrary to the claim that the artifact is left on disk — the
artifact file IS deleted: the `os.remove(file)` at the end of the success
branch runs after `_move_images` returns from its early-return path. -/
theorem empty_frames_counterexample :
    (process_videos [("2024-01-01 00:00:00.mp4",
        { extractExit := 0, extractStderr := "", start := 0, duration := 30,
          newJpgs := [] })] []).errors = [(emptyFramesMsg, none)] ∧
    (process_videos [("2024-01-01 00:00:00.mp4",
        { extractExit := 0, extractStderr := "", start := 0, duration := 30,
          newJpgs := [] })] []).moves = [] ∧
    (process_videos [("2024-01-01 00:00:00.mp4",
        { extractExit := 0, extractStderr := "", start := 0, duration := 30,
          newJpgs := [] })] []).removed = ["2024-01-01 00:00:00.mp4"] ∧
    ¬ ((process_videos [("2024-01-01 00:00:00.mp4",
        { extractExit := 0, extractStderr := "", start := 0, duration := 30,
          newJpgs := [] })] []).removed = []) := by
  refine ⟨rfl, rfl, rfl, ?_⟩
  intro hc
  exact List.cons_ne_nil _ _ hc

/-- C3 (amended): when archival is invoked for an artifact and zero
extracted frames are found, the error is reported and no frame is moved —
that artifact's archival is aborted — but the artifact file is nevertheless
deleted rather than left on disk; and a pass over `pre ++ post` continues
with `post` from the trace reached after `pre`, so the abort affects only
that artifact. -/
theorem empty_frames_spec :
    (∀ (tr : PVTrace) (f : String) (e : VideoEnv),
      e.extractExit = 0 → tr.cwdJpgs ++ e.newJpgs = [] →
      processOne tr (f, e) =
        { errors := tr.errors ++ [(emptyFramesMsg, none)],
          moves := tr.moves,
          removed := tr.removed ++ [f],
          cwdJpgs := [] }) ∧
    (∀ (tr : PVTrace) (pre post : List (String × VideoEnv)),
      processVideosFrom tr (pre ++ post) =
        processVideosFrom (processVideosFrom tr pre) post) := by
  constructor
  · intro tr f e h0 hcwd
    unfold processOne
    rw [if_neg (by simp [h0])]
    rw [hcwd]
    simp [move_images, List.insertionSort]
  · intro tr pre post
    unfold processVideosFrom
    exact List.foldl_append _ _ _ _

/-- C3 witness: the amended theorem at a concrete input — empty working
directory, extraction exits 0 producing no frames: the artifact is
removed. -/
theorem empty_frames_spec_witness :
    processOne { errors := [], moves := [], removed := [], cwdJpgs := [] }
        ("a.mp4",
          { extractExit := 0, extractStderr := "", start := 0, duration := 30,
            newJpgs := [] }) =
      { errors := [(emptyFramesMsg, none)], moves := [],
        removed := ["a.mp4"], cwdJpgs := [] } :=
  empty_frames_spec.1
    { errors := [], moves := [], removed := [], cwdJpgs := [] } "a.mp4"
    { extractExit := 0, extractStderr := "", start := 0, duration := 30,
      newJpgs := [] } rfl rfl

/-- C6: when the frame-extraction collaborator exits non-zero for an
artifact, the Notifier receives exactly one error call referencing the
frame-splitting failure (carrying the captured stderr), the artifact file
is deleted, no frame files are moved in that step, and the pass continues
with the remaining pending artifacts from the resulting trace. -/
theorem extraction_failure_spec :
    (∀ (tr : PVTrace) (f : String) (e : VideoEnv),
      e.extractExit ≠ 0 →
      processOne tr (f, e) =
        { errors := tr.errors ++ [(splitErrorMsg, some e.extractStderr)],
          moves := tr.moves,
          removed := tr.removed ++ [f],
          cwdJpgs := tr.cwdJpgs ++ e.newJpgs }) ∧
    (∀ (init : List String) (pre post : List (String × VideoEnv)),
      process_videos (pre ++ post) init =
        processVideosFrom (process_videos pre init) post) := by
  constructor
  · intro tr f e h
    unfold processOne
    rw [if_pos h]
  · intro init pre post
    unfold process_videos processVideosFrom
    exact List.foldl_append _ _ _ _

/-- C6 witness: the theorem at a concrete input — extraction exits 1 with
captured stderr, the artifact is removed and exactly one splitting error is
reported. -/
theorem extraction_failure_spec_witness :
    ((1 : ℤ) ≠ 0) ∧
    processOne { errors := [], moves := [], removed := [], cwdJpgs := [] }
        ("b.mp4",
          { extractExit := 1, extractStderr := boomMsg, start := 0,
            duration := 30, newJpgs := [] }) =
      { errors := [(splitErrorMsg, some boomMsg)], moves := [],
        removed := ["b.mp4"], cwdJpgs := [] } :=
  ⟨by decide,
    extraction_failure_spec.1
      { errors := [], moves := [], removed := [], cwdJpgs := [] } "b.mp4"
      { extractExit := 1, extractStderr := boomMsg, start := 0,
        duration := 30, newJpgs := [] } (by decide)⟩

/-- A rendered digit character is a decimal digit. -/
theorem parseDigit_ofNat (m : ℕ) (h : m < 10) :
    parseDigit (Char.ofNat (48 + m)) = some m := by
  interval_cases m <;> decide

/-- Parsing inverts digit rendering. -/
theorem parseDigit_digitChar (n : ℕ) :
    parseDigit (digitChar n) = some (n % 10) :=
  parseDigit_ofNat (n % 10) (Nat.mod_lt _ (by norm_num))

/-- A rendered digit character is never the dot. -/
theorem notDot_ofNat (m : ℕ) (h : m < 10) :
    (!(Char.ofNat (48 + m) == '.')) = true := by
  interval_cases m <;> decide

/-- Digit characters survive `split('.')`. -/
theorem notDot_digitChar (n : ℕ) : (!(digitChar n == '.')) = true :=
  notDot_ofNat (n % 10) (Nat.mod_lt _ (by norm_num))

/-- Two-digit round trip. -/
theorem parse2_pad2 (n : ℕ) (h : n < 100) :
    parse2 (digitChar (n / 10)) (digitChar n) = some n := by
  simp [parse2, parseDigit_digitChar]
  omega

/-- Four-digit round trip. -/
theorem parse4_pad4 (n : ℕ) (h : n < 10000) :
    parse4 (digitChar (n / 1000)) (digitChar (n / 100)) (digitChar (n / 10))
      (digitChar n) = some n := by
  simp [parse4, parseDigit_digitChar]
  omega

/-- Applying `split('.')[0]` recovers exactly the serialized instant from the
artifact filename: the rendered form contains no dot, and the extension
follows the first dot. -/
theorem takeBeforeDot_artifact (t : PyDateTime) :
    takeBeforeDot (artifactFilename t) = fmtDateTime t := by
  unfold artifactFilename fmtDateTime pad4 pad2 takeBeforeDot
  simp [List.takeWhile_cons, notDot_digitChar]

/-- Reduction of the fixed-width parse on a shape-correct character list. -/
theorem strptime_eq (y1 y2 y3 y4 a1 a2 b1 b2 c1 c2 d1 d2 e1 e2 : Char) :
    strptimeYmdHMS [y1, y2, y3, y4, '-', a1, a2, '-', b1, b2, ' ', c1, c2,
        ':', d1, d2, ':', e1, e2] =
      (do
        let y ← parse4 y1 y2 y3 y4
        let mo ← parse2 a1 a2
        let da ← parse2 b1 b2
        let ho ← parse2 c1 c2
        let mi ← parse2 d1 d2
        let se ← parse2 e1 e2
        let t : PyDateTime :=
          { year := y, month := mo, day := da, hour := ho, minute := mi,
            second := se }
        if t.Valid then some t else none) := rfl

/-- C8: the filename serialization boundary round-trips — for every valid
second-precision instant, serializing it into the artifact filename at
capture time and parsing it back out at archival time yields the same
instant. -/
theorem filename_roundtrip (t : PyDateTime) (h : t.Valid) :
    parseArtifactStart (artifactFilename t) = some t := by
  obtain ⟨h1, h2, h3, h4, h5, h6, h7, h8, h9⟩ := h
  have hy : t.year < 10000 := by omega
  have hmo : t.month < 100 := by omega
  have hda : t.day < 100 := by
    have : daysInMonth t.year t.month ≤ 31 := by
      unfold daysInMonth
      split <;> split <;> omega
    omega
  have hho : t.hour < 100 := by omega
  have hmi : t.minute < 100 := by omega
  have hse : t.second < 100 := by omega
  unfold parseArtifactStart
  rw [takeBeforeDot_artifact]
  show strptimeYmdHMS
      (pad4 t.year ++ '-' :: pad2 t.month ++ '-' :: pad2 t.day ++
        ' ' :: pad2 t.hour ++ ':' :: pad2 t.minute ++ ':' :: pad2 t.second) =
    some t
  unfold pad4 pad2
  rw [show ∀ u v w x : Char, ∀ l : List Char,
      [u, v, w, x] ++ l = u :: v :: w :: x :: l from fun _ _ _ _ _ => rfl]
  simp only [List.cons_append, List.nil_append]
  rw [strptime_eq]
  rw [parse4_pad4 _ hy, parse2_pad2 _ hmo, parse2_pad2 _ hda,
    parse2_pad2 _ hho, parse2_pad2 _ hmi, parse2_pad2 _ hse]
  simp only [Option.bind_eq_bind, Option.some_bind]
  rw [if_pos ⟨h1, h2, h3, h4, h5, h6, h7, h8, h9⟩]

/-- C8 witness: the round trip at the concrete instant
2024-01-01 00:00:00. -/
theorem filename_roundtrip_witness :
    PyDateTime.Valid sampleInstant ∧
    parseArtifactStart (artifactFilename sampleInstant) = some sampleInstant :=
  ⟨by decide, filename_roundtrip sampleInstant (by decide)⟩

end Geyser
